import Mathlib

/-!
Verification of the TriviaBot session/scoring/stats subsystem.

Shallow embedding of:
- `config/settings.py` (scoring configuration constants),
- `src/utils/scoring.py` (`ScoringSystem`),
- `src/database/models.py` (`User`, `GameSession`, `UserStats` rows),
- `src/database/database.py` (`_save_game_session_sync`, `_update_user_stats_sync`,
  `_update_category_stats_sync`, `get_leaderboard`),
- `src/bot/cogs/trivia.py` (`TriviaCog.answer`, `TriviaCog._handle_question_timeout`)
  as a small-step machine whose atomic segments are the code between `await` points,
- `src/bot/cogs/stats.py` (`StatsCog.leaderboard`).

Python floats are modelled as exact reals (`ℝ`) where `math.sqrt` / `math.log`
appear and as exact rationals (`ℚ`) in the statistics-update code; Python ints
are `ℤ` (so that nonnegativity is a statement, not a typing artifact).
`round(x, 2)` is modelled with Mathlib's `round` (nearest integer of `100 * x`);
its tie-breaking behaviour is never relevant to the theorems below.
-/

/-! ## Configuration constants, from `config/settings.py` lines 27-30. -/

/-- Value of `Settings.DEFAULT_QUESTION_TIMEOUT` (`settings.py` line 28). -/
def DEFAULT_QUESTION_TIMEOUT : ℝ := 30

/-- Value of `Settings.BASE_POINTS` (`settings.py` line 29). -/
def BASE_POINTS : ℚ := 100

/-- Value of `Settings.MAX_SPEED_BONUS` (`settings.py` line 30). -/
def MAX_SPEED_BONUS : ℚ := 1.0

/-! ## ASCII string helpers modelling Python `str.lower`, `str.upper`, `str.strip`.

The difficulty names and answer letters handled by the program are ASCII, so the
ASCII fragment of the Python methods is the relevant one. -/

/-- Lowercasing of a single ASCII character, as Python `str.lower` does on ASCII. -/
def pyCharLower (c : Char) : Char :=
  if 'A' ≤ c ∧ c ≤ 'Z' then Char.ofNat (c.toNat + 32) else c

/-- Uppercasing of a single ASCII character, as Python `str.upper` does on ASCII. -/
def pyCharUpper (c : Char) : Char :=
  if 'a' ≤ c ∧ c ≤ 'z' then Char.ofNat (c.toNat - 32) else c

/-- Model of Python `s.lower()` on ASCII strings. -/
def pyLower (s : String) : String := ⟨s.data.map pyCharLower⟩

/-- Model of Python `s.upper()` on ASCII strings. -/
def pyUpper (s : String) : String := ⟨s.data.map pyCharUpper⟩

/-- ASCII whitespace test used by `pyStrip`. -/
def pyIsSpace (c : Char) : Bool :=
  c == ' ' || c == '\t' || c == '\n' || c == '\r'

/-- Model of Python `s.strip()` on ASCII strings: drop whitespace from both ends. -/
def pyStrip (s : String) : String :=
  ⟨((s.data.dropWhile pyIsSpace).reverse.dropWhile pyIsSpace).reverse⟩

/-! ## `ScoringSystem`, from `src/utils/scoring.py`. -/

/-- Model of Python `round(x, 2)`: round `100 * x` to the nearest integer and
divide back.  (Python rounds exact halves to even; no theorem below depends on a
half-way case, so Mathlib's `round` is used.) -/
noncomputable def round2 (x : ℝ) : ℝ := (round (100 * x) : ℤ) / 100

/-- Model of the `difficulty_multipliers` dict lookup
`difficulty_multipliers.get(difficulty.lower(), 1.5)` (`scoring.py` lines 31-37):
the three known keys map to their multipliers, every other string gets the
default `1.5`.  The argument here is the already-lowercased string. -/
def difficulty_multipliers (d : String) : ℚ :=
  if d = "easy" then 1.0
  else if d = "medium" then 1.5
  else if d = "hard" then 2.0
  else 1.5

/-- Model of `ScoringSystem._calculate_speed_bonus` (`scoring.py` lines 47-65). -/
noncomputable def calculate_speed_bonus (response_time max_time base_score : ℝ) : ℝ :=
  if response_time ≥ max_time then 0
  else round2 (base_score * (MAX_SPEED_BONUS : ℝ) *
    Real.sqrt (max 0 (max_time - response_time) / max_time))

/-- Model of the default `max_time = max_time or settings.DEFAULT_QUESTION_TIMEOUT`
(`scoring.py` line 40): Python `or` replaces both `None` and the falsy `0` by the
configured default. -/
noncomputable def effective_max_time (max_time : Option ℝ) : ℝ :=
  match max_time with
  | none => DEFAULT_QUESTION_TIMEOUT
  | some v => if v = 0 then DEFAULT_QUESTION_TIMEOUT else v

/-- Model of `ScoringSystem.calculate_score` (`scoring.py` lines 8-45), returning
`(base_score, speed_bonus, total_score)`. -/
noncomputable def calculate_score (is_correct : Bool) (response_time : ℝ)
    (difficulty : String) (max_time : Option ℝ) : ℝ × ℝ × ℝ :=
  if !is_correct then (0, 0, 0)
  else
    let base_score : ℝ := (BASE_POINTS : ℝ) * (difficulty_multipliers (pyLower difficulty) : ℝ)
    let mt := effective_max_time max_time
    let speed_bonus := calculate_speed_bonus response_time mt base_score
    (base_score, speed_bonus, base_score + speed_bonus)

/-- Model of `ScoringSystem.normalize_score_for_leaderboard`
(`scoring.py` lines 88-113); `math.log` is the natural logarithm. -/
noncomputable def normalize_score_for_leaderboard (total_score : ℝ) (games_played : ℤ)
    (win_rate : ℝ) : ℝ :=
  if games_played = 0 then 0
  else
    let avg_score := total_score / (games_played : ℝ)
    let consistency_multiplier := 1.0 + (win_rate / 100 * 0.5)
    let experience_factor := 1.0 + (Real.log ((games_played : ℝ) + 1) / 20)
    round2 (avg_score * consistency_multiplier * experience_factor)

/-! ## Database rows, from `src/database/models.py`.

Counter columns are modelled as `ℤ` (so "counter ≥ 0" is a property to prove,
not a typing artifact); score and response-time columns as exact `ℚ`. -/

/-- Row of the `users` table (`models.py` lines 8-40), restricted to the columns
the stats/leaderboard logic reads and writes. -/
structure User where
  id : ℤ
  total_games : ℤ
  total_wins : ℤ
  total_score : ℚ
  current_streak : ℤ
  best_streak : ℤ
  avg_response_time : ℚ
deriving DecidableEq

/-- Row of the `game_sessions` table (`models.py` lines 42-63), restricted to the
columns `_save_game_session_sync` and the stats updates read. -/
structure GameSession where
  category : String
  is_correct : Bool
  response_time : ℚ
  total_score : ℚ
deriving DecidableEq

/-- Row of the `user_stats` per-category table (`models.py` lines 65-85). -/
structure UserStats where
  games_played : ℤ
  games_won : ℤ
  total_score : ℚ
  avg_response_time : ℚ
  mastery_level : ℚ
deriving DecidableEq

/-- Column state of a freshly created user, as built by
`DatabaseManager._get_or_create_user_sync` (`database.py` lines 139-151): every
counter and average starts at `0`. -/
def fresh_user (uid : ℤ) : User :=
  { id := uid, total_games := 0, total_wins := 0, total_score := 0,
    current_streak := 0, best_streak := 0, avg_response_time := 0 }

/-- Column state of a freshly created per-category stats row, as built in
`_update_category_stats_sync` (`database.py` lines 326-335). -/
def fresh_stats : UserStats :=
  { games_played := 0, games_won := 0, total_score := 0,
    avg_response_time := 0, mastery_level := 0 }

/-- Property `User.win_rate` (`models.py` lines 28-33): win percentage, `0` for a
user with no games. -/
def User.win_rate (u : User) : ℚ :=
  if u.total_games = 0 then 0 else ((u.total_wins : ℚ) / (u.total_games : ℚ)) * 100

/-! ## Stats updates, from `src/database/database.py`. -/

/-- Model of `DatabaseManager._update_user_stats_sync` (`database.py` lines
253-312), the mutation it performs on the user row.  The `field or 0`
null-coalescing of lines 269-274 is the identity here because every field of the
model is total.  Each in-place mutation becomes a field update; note that the
incremental-mean branch on line 294 tests `total_games` after its increment. -/
def update_user_stats_sync (u : User) (g : GameSession) : User :=
  { u with
    total_games := u.total_games + 1,
    total_score := u.total_score + g.total_score,
    total_wins := if g.is_correct then u.total_wins + 1 else u.total_wins,
    current_streak := if g.is_correct then u.current_streak + 1 else 0,
    best_streak := if g.is_correct then max u.best_streak (u.current_streak + 1)
      else u.best_streak,
    avg_response_time :=
      if u.total_games + 1 = 1 then g.response_time
      else (u.avg_response_time * (((u.total_games + 1 : ℤ) : ℚ) - 1) + g.response_time) /
        ((u.total_games + 1 : ℤ) : ℚ) }

/-- Mutation `_update_category_stats_sync` (`database.py` lines 338-362) performs
on the single `user_stats` row it found or created. -/
def update_stats_row (s : UserStats) (g : GameSession) : UserStats :=
  let games_played := s.games_played + 1
  let games_won := if g.is_correct then s.games_won + 1 else s.games_won
  let avg_response_time :=
    if games_played = 1 then g.response_time
    else (s.avg_response_time * ((games_played : ℚ) - 1) + g.response_time) /
      (games_played : ℚ)
  let win_rate : ℚ :=
    if games_played > 0 then ((games_won : ℚ) / (games_played : ℚ)) * 100 else 0
  { games_played := games_played,
    games_won := games_won,
    total_score := s.total_score + g.total_score,
    avg_response_time := avg_response_time,
    mastery_level := win_rate * min ((games_played : ℚ) / 10) 1 }

/-- Model of `DatabaseManager._update_category_stats_sync` (`database.py` lines
314-362) on the whole `user_stats` table, modelled as a map from category name
to row (the find-or-create of lines 320-335 becomes a total map with
`fresh_stats` as the default row).  Line 316-317: a falsy (empty) category is
skipped entirely. -/
def update_category_stats_sync (m : String → UserStats) (g : GameSession) :
    String → UserStats :=
  if g.category = "" then m
  else Function.update m g.category (update_stats_row (m g.category) g)

/-- Persistent state touched by `_save_game_session_sync`: the append-only
`game_sessions` table, the caller's `users` row, and the `user_stats` table. -/
structure TriviaDb where
  game_sessions : List GameSession
  user : User
  category_stats : String → UserStats

/-- Model of `DatabaseManager._save_game_session_sync` (`database.py` lines
203-224) running inside one ORM session: insert the game row, update the user
aggregates, update the category aggregates (called at the end of
`_update_user_stats_sync`, line 305).  The booleans `f0 f1 f2` inject a raised
exception at each of the three steps (flush of the insert, user-stats update,
category-stats update); any raise propagates out of the `try`. -/
def save_game_session_sync (db : TriviaDb) (g : GameSession) (f0 f1 f2 : Bool) :
    Except String TriviaDb :=
  if f0 then Except.error "flush failed"
  else
    let ws1 : TriviaDb := { db with game_sessions := db.game_sessions ++ [g] }
    if f1 then Except.error "user stats update failed"
    else
      let ws2 : TriviaDb := { ws1 with user := update_user_stats_sync ws1.user g }
      if f2 then Except.error "category stats update failed"
      else Except.ok { ws2 with
        category_stats := update_category_stats_sync ws2.category_stats g }

/-- Durable state after the call: `_save_game_session_sync` commits the session
on success (`database.py` line 217) and rolls it back on any exception (line
221), so a raising run leaves the pre-call rows in place. -/
def persisted_after (db : TriviaDb) (g : GameSession) (f0 f1 f2 : Bool) : TriviaDb :=
  match save_game_session_sync db g f0 f1 f2 with
  | Except.ok ws => ws
  | Except.error _ => db

/-! ## Leaderboard, from `database.py` lines 479-488 and `stats.py` lines 89-135. -/

/-- Descending order on `users.total_score`, the `ORDER BY total_score DESC` of
`DatabaseManager.get_leaderboard` (`database.py` line 488). -/
def byTotalScoreDesc (a b : User) : Prop := b.total_score ≤ a.total_score

instance : DecidableRel byTotalScoreDesc :=
  fun a b => inferInstanceAs (Decidable (b.total_score ≤ a.total_score))

instance : IsTotal User byTotalScoreDesc := ⟨fun a b => le_total b.total_score a.total_score⟩

instance : IsTrans User byTotalScoreDesc := ⟨fun _ _ _ h1 h2 => le_trans h2 h1⟩

/-- Model of `DatabaseManager.get_leaderboard` (`database.py` lines 479-488):
the `users` rows ordered by raw `total_score` descending, truncated to `limit`.
The SQL sort is modelled by insertion sort under `byTotalScoreDesc`. -/
def get_leaderboard (limit : ℕ) (db : List User) : List User :=
  (List.insertionSort byTotalScoreDesc db).take limit

/-- Model of the displayed leaderboard built by `StatsCog.leaderboard`
(`stats.py` lines 113-126): for each returned row, in the order the query
returned them, the pair of the user id and the normalized score computed by
`normalize_score_for_leaderboard(total_score, total_games, win_rate)`. -/
noncomputable def leaderboard_view (limit : ℕ) (db : List User) : List (ℤ × ℝ) :=
  (get_leaderboard limit db).map fun u =>
    (u.id, normalize_score_for_leaderboard (u.total_score : ℝ) u.total_games
      (u.win_rate : ℝ))

/-! ## The answer/timeout race in `TriviaCog`, from `src/bot/cogs/trivia.py`.

`TriviaCog.answer` (lines 115-217) and the armed timeout task
`TriviaCog._handle_question_timeout` (lines 302-332) are coroutines of one
asyncio event loop: they interleave only at `await` points.  Each is modelled as
a program counter over its atomic segments (the code between awaits that touches
shared state), and an arbitrary interleaving is a schedule choosing which
coroutine advances next.  Shared state is the `active_games` entry of the one
user (`game` below; the entry is only ever present with `is_active = True`,
since both paths clear the flag and delete the entry in the same atomic
segment), the number of `game_sessions` rows written, the number of
`_update_user_stats_sync` invocations, and the stats rows themselves.

Answer segments:
- `a0`: lines 117-125, the active-game guard, then suspend at `defer()`.
- `a1`: lines 130-153, resumed after `defer()`: read the registry entry
  (a missing entry raises `KeyError` into the generic handler: abort), cancel
  the timeout task (lines 135-136; cancelling an asyncio task that is suspended
  at an await aborts it, a finished task is unaffected), validate the letter
  (lines 139-145: invalid input returns early, after the cancel), then suspend
  at `get_or_create_user`.
- `a2`: line 176, `save_game_session` writes the game row and applies the stats
  updates (the whole `_save_game_session_sync` transaction commits inside one
  `asyncio.to_thread` call).
- `a3`: lines 207-208, after the result messages: clear `is_active` and delete
  the registry entry.

Timeout segments:
- `t0`: lines 305-307, resumed when `asyncio.sleep(30)` elapses: if the entry
  is present and active, build the embed and suspend at `channel.send`; else
  finish.  (The 30-second duration is the literal in `asyncio.sleep(30)`.)
- `t1`: lines 326-327, resumed after `channel.send`: clear `is_active` and
  delete the registry entry.  Note this path writes no game row and performs no
  stats update.
-/

/-- Program counter of the `TriviaCog.answer` coroutine. -/
inductive APc where
  | a0 | a1 | a2 | a3 | adone
deriving DecidableEq

/-- Program counter of the `TriviaCog._handle_question_timeout` coroutine. -/
inductive TPc where
  | t0 | t1 | tdone
deriving DecidableEq

/-- Joint state of the two coroutines and the shared registry/persistence. -/
structure CogState where
  game : Bool
  apc : APc
  tpc : TPc
  saved_records : ℕ
  stats_calls : ℕ
  user : User
  category_stats : String → UserStats

/-- Validation of the submitted letter (`trivia.py` lines 139-140):
`answer.upper().strip()` must be one of `A`, `B`, `C`, `D`. -/
def answer_letter_valid (letter : String) : Bool :=
  (["A", "B", "C", "D"] : List String).contains (pyStrip (pyUpper letter))

/-- One atomic segment of the `answer` coroutine (see the segment map above). -/
def answer_step (valid : Bool) (g : GameSession) (s : CogState) : CogState :=
  match s.apc with
  | APc.a0 => if s.game then { s with apc := APc.a1 } else { s with apc := APc.adone }
  | APc.a1 =>
      if s.game then
        let s' := { s with tpc := TPc.tdone }
        if valid then { s' with apc := APc.a2 } else { s' with apc := APc.adone }
      else { s with apc := APc.adone }
  | APc.a2 =>
      { s with
        saved_records := s.saved_records + 1,
        stats_calls := s.stats_calls + 1,
        user := update_user_stats_sync s.user g,
        category_stats := update_category_stats_sync s.category_stats g,
        apc := APc.a3 }
  | APc.a3 => { s with game := false, apc := APc.adone }
  | APc.adone => s

/-- One atomic segment of the `_handle_question_timeout` coroutine. -/
def timeout_step (s : CogState) : CogState :=
  match s.tpc with
  | TPc.t0 => if s.game then { s with tpc := TPc.t1 } else { s with tpc := TPc.tdone }
  | TPc.t1 => { s with game := false, tpc := TPc.tdone }
  | TPc.tdone => s

/-- One scheduler choice: `true` advances the answer coroutine, `false` the
timeout coroutine. -/
def race_step (valid : Bool) (g : GameSession) (c : Bool) (s : CogState) : CogState :=
  if c then answer_step valid g s else timeout_step s

/-- Run an arbitrary interleaving of the two coroutines. -/
def race_run (valid : Bool) (g : GameSession) (sched : List Bool) (s : CogState) :
    CogState :=
  sched.foldl (fun s c => race_step valid g c s) s

/-- Initial state at `trivia.py` line 100-104: a started session (entry present
and active), an armed timeout sleeping at `t0`, the answer coroutine invoked at
`a0`, nothing persisted yet. -/
def race_init (u : User) (m : String → UserStats) : CogState :=
  { game := true, apc := APc.a0, tpc := TPc.t0, saved_records := 0,
    stats_calls := 0, user := u, category_stats := m }

/-! ## Invariant predicates and concrete fixtures used in the theorems below. -/

/-- Counter invariants of the `users` row claimed by the spec: every counter is
nonnegative, `total_wins ≤ total_games`, and `current_streak ≤ best_streak`. -/
def user_counters_invariant (u : User) : Prop :=
  0 ≤ u.total_games ∧ 0 ≤ u.total_wins ∧ 0 ≤ u.current_streak ∧
    0 ≤ u.best_streak ∧ u.total_wins ≤ u.total_games ∧
    u.current_streak ≤ u.best_streak

/-- Inductive invariant of the answer/timeout race: stats updates track saved
game rows, at most one row is ever saved, no row is saved before the answer
coroutine passed its save segment, and while nothing is saved the persistent
aggregates still hold their initial values. -/
def race_invariant (u : User) (m : String → UserStats) (s : CogState) : Prop :=
  s.stats_calls = s.saved_records ∧ s.saved_records ≤ 1 ∧
    ((s.apc = APc.a0 ∨ s.apc = APc.a1 ∨ s.apc = APc.a2) → s.saved_records = 0) ∧
    (s.saved_records = 0 → s.user = u ∧ s.category_stats = m)

/-- Concrete correct game in category `science`, response time 2s. -/
def gameW1 : GameSession :=
  { category := "science", is_correct := true, response_time := 2, total_score := 250 }

/-- Concrete wrong game in category `science`, response time 4s. -/
def gameW2 : GameSession :=
  { category := "science", is_correct := false, response_time := 4, total_score := 0 }

/-- Concrete user mid-way through a winning streak, used against the timeout path. -/
def streak_user : User :=
  { id := 7, total_games := 8, total_wins := 6, total_score := 900,
    current_streak := 3, best_streak := 5, avg_response_time := 10 }

/-- Leaderboard counterexample, first user: high raw total score accumulated over
2 games, but no wins. -/
def lbUserA : User :=
  { id := 1, total_games := 2, total_wins := 0, total_score := 100,
    current_streak := 0, best_streak := 0, avg_response_time := 0 }

/-- Leaderboard counterexample, second user: slightly lower raw total score over
2 games, with a 100% win rate, hence a far higher normalized score. -/
def lbUserB : User :=
  { id := 2, total_games := 2, total_wins := 2, total_score := 99,
    current_streak := 2, best_streak := 2, avg_response_time := 0 }

/-! ## Helper lemmas about `round2` and the multipliers. -/

/-- Numbers that are integer multiples of `1/100` are fixed by `round2`. -/
theorem round2_eq_self_of_int_div (x : ℝ) (k : ℤ) (hk : x = (k : ℝ) / 100) :
    round2 x = x := by
  subst hk
  unfold round2
  rw [show (100 : ℝ) * ((k : ℝ) / 100) = (k : ℝ) by ring, round_intCast]

/-- Upper deviation of `round2`. -/
theorem round2_le (x : ℝ) : round2 x ≤ x + 1 / 200 := by
  unfold round2
  have h := abs_sub_round (100 * x)
  rw [abs_le] at h
  have h2 : ((round (100 * x) : ℤ) : ℝ) ≤ 100 * x + 1 / 2 := by linarith [h.2]
  linarith

/-- Lower deviation of `round2`. -/
theorem le_round2 (x : ℝ) : x - 1 / 200 ≤ round2 x := by
  unfold round2
  have h := abs_sub_round (100 * x)
  rw [abs_le] at h
  have h2 : 100 * x - 1 / 2 ≤ ((round (100 * x) : ℤ) : ℝ) := by linarith [h.1]
  linarith

/-- The multiplier table only produces `1`, `1.5` or `2`. -/
theorem difficulty_multipliers_cases (d : String) :
    difficulty_multipliers d = 1 ∨ difficulty_multipliers d = 3 / 2 ∨
      difficulty_multipliers d = 2 := by
  unfold difficulty_multipliers
  split
  · left; norm_num
  · split
    · right; left; norm_num
    · split
      · right; right; norm_num
      · right; left; norm_num

/-- Every base score produced by `calculate_score` is an integer multiple of `1/100`. -/
theorem base_score_int_div (d : String) :
    ∃ k : ℤ, (BASE_POINTS : ℝ) * (difficulty_multipliers d : ℝ) = (k : ℝ) / 100 := by
  rcases difficulty_multipliers_cases d with h | h | h <;>
    rw [h] <;> [exact ⟨10000, by norm_num [BASE_POINTS]⟩;
      exact ⟨15000, by norm_num [BASE_POINTS]⟩;
      exact ⟨20000, by norm_num [BASE_POINTS]⟩]

/-- Every value of `calculate_speed_bonus` is an integer multiple of `1/100`. -/
theorem calculate_speed_bonus_int_div (rt mt b : ℝ) :
    ∃ k : ℤ, calculate_speed_bonus rt mt b = (k : ℝ) / 100 := by
  unfold calculate_speed_bonus
  split
  · exact ⟨0, by norm_num⟩
  · exact ⟨round (100 * (b * (MAX_SPEED_BONUS : ℝ) *
      Real.sqrt (max 0 (mt - rt) / mt))), rfl⟩

/-! ## Claim C6: the speed-bonus formula. -/

/-- C6: for a correct answer with `responseTime < maxTime` the speed bonus is
`round2(base × MAX_SPEED_BONUS × sqrt((maxTime − responseTime)/maxTime))`; for
`responseTime ≥ maxTime` it is `0`; and for `responseTime = 0` (with a positive
time limit) it is exactly `base × MAX_SPEED_BONUS`, for every base score the
program produces (`BASE_POINTS` times a difficulty multiplier). -/
theorem speed_bonus_spec :
    (∀ rt mt b : ℝ, rt < mt →
      calculate_speed_bonus rt mt b =
        round2 (b * (MAX_SPEED_BONUS : ℝ) * Real.sqrt ((mt - rt) / mt))) ∧
    (∀ rt mt b : ℝ, mt ≤ rt → calculate_speed_bonus rt mt b = 0) ∧
    (∀ (mt : ℝ) (d : String), 0 < mt →
      calculate_speed_bonus 0 mt
          ((BASE_POINTS : ℝ) * (difficulty_multipliers (pyLower d) : ℝ)) =
        (BASE_POINTS : ℝ) * (difficulty_multipliers (pyLower d) : ℝ) *
          (MAX_SPEED_BONUS : ℝ)) := by
  refine ⟨fun rt mt b h => ?_, fun rt mt b h => ?_, fun mt d h => ?_⟩
  · unfold calculate_speed_bonus
    rw [if_neg (by linarith), max_eq_right (by linarith)]
  · unfold calculate_speed_bonus
    rw [if_pos (by linarith)]
  · unfold calculate_speed_bonus
    rw [if_neg (by linarith)]
    rw [sub_zero, max_eq_right h.le, div_self (ne_of_gt h), Real.sqrt_one, mul_one]
    obtain ⟨k, hk⟩ := base_score_int_div (pyLower d)
    have hmsb : (MAX_SPEED_BONUS : ℝ) = 1 := by norm_num [MAX_SPEED_BONUS]
    rw [hmsb, mul_one, round2_eq_self_of_int_div _ k hk]

/-- Concrete instances of `speed_bonus_spec` (response times 5, 31 and 0 against
a 30-second limit). -/
theorem speed_bonus_spec_witness :
    calculate_speed_bonus 5 30 150 =
      round2 ((150 : ℝ) * (MAX_SPEED_BONUS : ℝ) * Real.sqrt (((30 : ℝ) - 5) / 30)) ∧
    calculate_speed_bonus 31 30 150 = 0 ∧
    calculate_speed_bonus 0 30
        ((BASE_POINTS : ℝ) * (difficulty_multipliers (pyLower "medium") : ℝ)) =
      (BASE_POINTS : ℝ) * (difficulty_multipliers (pyLower "medium") : ℝ) *
        (MAX_SPEED_BONUS : ℝ) :=
  ⟨speed_bonus_spec.1 5 30 150 (by norm_num),
   speed_bonus_spec.2.1 31 30 150 (by norm_num),
   speed_bonus_spec.2.2 30 "medium" (by norm_num)⟩

/-! ## Claim C7: the total score. -/

/-- C7: `calculate_score` returns `(0, 0, 0)` for an incorrect answer, and for a
correct answer its total equals `round2(base + bonus)` — the code computes
`base + bonus` without a further round, but both components are already exact
multiples of `1/100` (each rounding was applied at the point of computation),
so the value equals `round2(base + bonus)`.  Determinism is immediate: the model
is a function of its arguments. -/
theorem calculate_score_total_spec :
    ∀ (rt : ℝ) (d : String) (mt : Option ℝ),
      calculate_score false rt d mt = (0, 0, 0) ∧
      (calculate_score true rt d mt).2.2 =
        round2 ((calculate_score true rt d mt).1 + (calculate_score true rt d mt).2.1) := by
  intro rt d mt
  constructor
  · simp [calculate_score]
  · obtain ⟨k1, h1⟩ := base_score_int_div (pyLower d)
    obtain ⟨k2, h2⟩ := calculate_speed_bonus_int_div rt (effective_max_time mt)
      ((BASE_POINTS : ℝ) * (difficulty_multipliers (pyLower d) : ℝ))
    simp only [calculate_score, Bool.not_true, Bool.false_eq_true, if_false]
    refine (round2_eq_self_of_int_div _ (k1 + k2) ?_).symm
    rw [h2, h1]
    push_cast
    ring

/-! ## Claim C9: unknown difficulties score as medium; lookup is case-insensitive. -/

/-- C9: a difficulty whose lowercasing is none of `easy`/`medium`/`hard` gets
the dict default `1.5`, i.e. scores exactly like `medium`; and the score
depends on the difficulty string only through its lowercasing, so the lookup is
case-insensitive. -/
theorem unknown_difficulty_scores_as_medium (d : String) :
    ((pyLower d ≠ "easy" ∧ pyLower d ≠ "medium" ∧ pyLower d ≠ "hard") →
      ∀ (c : Bool) (rt : ℝ) (mt : Option ℝ),
        calculate_score c rt d mt = calculate_score c rt "medium" mt) ∧
    (∀ d' : String, pyLower d = pyLower d' →
      ∀ (c : Bool) (rt : ℝ) (mt : Option ℝ),
        calculate_score c rt d mt = calculate_score c rt d' mt) := by
  constructor
  · rintro ⟨h1, h2, h3⟩ c rt mt
    have hm : difficulty_multipliers (pyLower d) = 1.5 := by
      unfold difficulty_multipliers
      rw [if_neg h1, if_neg h2, if_neg h3]
    have hm' : difficulty_multipliers (pyLower "medium") = 1.5 := by
      rw [show pyLower "medium" = "medium" from by decide]
      unfold difficulty_multipliers
      rw [if_neg (by decide), if_pos rfl]
    simp only [calculate_score, hm, hm']
  · intro d' h c rt mt
    simp only [calculate_score, h]

/-- Concrete instances of `unknown_difficulty_scores_as_medium`: the misspelled
difficulty `mediun` scores like `medium`, and `HARD` scores like `hard`. -/
theorem unknown_difficulty_witness :
    calculate_score true 5 "mediun" none = calculate_score true 5 "medium" none ∧
    calculate_score true 5 "HARD" none = calculate_score true 5 "hard" none :=
  ⟨(unknown_difficulty_scores_as_medium "mediun").1 ⟨by decide, by decide, by decide⟩ true 5 none,
   (unknown_difficulty_scores_as_medium "HARD").2 "hard" (by decide) true 5 none⟩

/-! ## Claim C5: user-aggregate counter invariants. -/

/-- C5: every stats update preserves the user-aggregate invariants — starting
from a row with all counters nonnegative, `total_wins ≤ total_games` and
`current_streak ≤ best_streak`, the row after recording any game (correct or
not) satisfies them again. -/
theorem user_stats_update_preserves_invariants (u : User) (g : GameSession)
    (h : user_counters_invariant u) :
    user_counters_invariant (update_user_stats_sync u g) := by
  obtain ⟨h1, h2, h3, h4, h5, h6⟩ := h
  cases hc : g.is_correct <;>
    simp only [user_counters_invariant, update_user_stats_sync, hc, if_true,
      Bool.false_eq_true, Bool.true_eq_false, if_false] <;>
    refine ⟨by omega, by omega, by omega, by omega, by omega, by omega⟩

/-- Concrete instance of `user_stats_update_preserves_invariants`: a fresh user
row satisfies the invariants, and still does after recording `gameW1`. -/
theorem user_stats_invariant_witness :
    user_counters_invariant (fresh_user 1) ∧
      user_counters_invariant (update_user_stats_sync (fresh_user 1) gameW1) :=
  ⟨⟨by decide, by decide, by decide, by decide, by decide, by decide⟩,
   user_stats_update_preserves_invariants (fresh_user 1) gameW1
     ⟨by decide, by decide, by decide, by decide, by decide, by decide⟩⟩

/-! ## Claim C3: the stored average is the exact arithmetic mean. -/

/-- Fold of user-stats updates increments `total_games` once per game. -/
theorem foldl_user_total_games (gs : List GameSession) (u : User) :
    (gs.foldl update_user_stats_sync u).total_games = u.total_games + gs.length := by
  induction gs generalizing u with
  | nil => simp
  | cons g gs ih =>
      rw [List.foldl_cons, ih]
      simp only [update_user_stats_sync, List.length_cons]
      push_cast
      ring

/-- The incremental mean of `_update_user_stats_sync`, folded from a fresh user
over any nonempty game list, equals the exact arithmetic mean of the
response times. -/
theorem foldl_user_avg (gs : List GameSession) (uid : ℤ) (hne : gs ≠ []) :
    (gs.foldl update_user_stats_sync (fresh_user uid)).avg_response_time =
      (gs.map GameSession.response_time).sum / (gs.length : ℚ) := by
  induction gs using List.reverseRecOn with
  | nil => exact absurd rfl hne
  | append_singleton l g ih =>
      rw [List.foldl_append, List.foldl_cons, List.foldl_nil]
      by_cases hl : l = []
      · subst hl
        simp [update_user_stats_sync, fresh_user]
      · have hlen : (l.foldl update_user_stats_sync (fresh_user uid)).total_games
            = (l.length : ℤ) := by
          rw [foldl_user_total_games]; simp [fresh_user]
        have hlpos : 0 < l.length := List.length_pos.mpr hl
        have havg := ih hl
        set u := l.foldl update_user_stats_sync (fresh_user uid) with hu
        simp only [update_user_stats_sync]
        rw [if_neg (by omega : ¬u.total_games + 1 = 1), havg, hlen]
        rw [List.map_append, List.sum_append, List.length_append]
        simp only [List.map_cons, List.map_nil, List.sum_cons, List.sum_nil,
          List.length_cons, List.length_nil]
        have hq : ((l.length : ℚ)) ≠ 0 := by
          exact_mod_cast Nat.pos_iff_ne_zero.mp hlpos
        have hq1 : (((l.length : ℤ) + 1 : ℤ) : ℚ) ≠ 0 := by
          push_cast
          positivity
        field_simp

/-- Reading one category out of a fold of `_update_category_stats_sync` calls is
a fold of the single-row update over exactly the games of that category
(nonempty category names only; the update skips falsy categories and touches
only the row of the game's own category). -/
theorem foldl_category_pointwise (c : String) (hc : c ≠ "") (gs : List GameSession) :
    ∀ m : String → UserStats,
      (gs.foldl update_category_stats_sync m) c =
        (gs.filter (fun g => g.category = c)).foldl update_stats_row (m c) := by
  induction gs with
  | nil => intro m; simp
  | cons g gs ih =>
      intro m
      rw [List.foldl_cons, List.filter_cons]
      by_cases heq : g.category = c
      · subst heq
        rw [if_pos (by simp), List.foldl_cons, ih]
        have hgc : g.category ≠ "" := hc
        simp [update_category_stats_sync, hgc, Function.update_same]
      · rw [if_neg (by simp [heq]), ih]
        by_cases hgc : g.category = ""
        · simp [update_category_stats_sync, hgc]
        · simp [update_category_stats_sync, hgc, Function.update_noteq (Ne.symm heq)]

/-- Fold of single-row category updates increments `games_played` once per game. -/
theorem foldl_row_games_played (gs : List GameSession) (s : UserStats) :
    (gs.foldl update_stats_row s).games_played = s.games_played + gs.length := by
  induction gs generalizing s with
  | nil => simp
  | cons g gs ih =>
      rw [List.foldl_cons, ih]
      simp only [update_stats_row, List.length_cons]
      push_cast
      ring

/-- The incremental mean of `_update_category_stats_sync`, folded from a fresh
stats row over any nonempty game list, equals the exact arithmetic mean of the
response times. -/
theorem foldl_row_avg (gs : List GameSession) (hne : gs ≠ []) :
    (gs.foldl update_stats_row fresh_stats).avg_response_time =
      (gs.map GameSession.response_time).sum / (gs.length : ℚ) := by
  induction gs using List.reverseRecOn with
  | nil => exact absurd rfl hne
  | append_singleton l g ih =>
      rw [List.foldl_append, List.foldl_cons, List.foldl_nil]
      by_cases hl : l = []
      · subst hl
        simp [update_stats_row, fresh_stats]
      · have hlen : (l.foldl update_stats_row fresh_stats).games_played
            = (l.length : ℤ) := by
          rw [foldl_row_games_played]; simp [fresh_stats]
        have hlpos : 0 < l.length := List.length_pos.mpr hl
        have havg := ih hl
        set s := l.foldl update_stats_row fresh_stats with hs
        simp only [update_stats_row]
        rw [if_neg (by omega : ¬s.games_played + 1 = 1), havg, hlen]
        rw [List.map_append, List.sum_append, List.length_append]
        simp only [List.map_cons, List.map_nil, List.sum_cons, List.sum_nil,
          List.length_cons, List.length_nil]
        have hq : ((l.length : ℚ)) ≠ 0 := by
          exact_mod_cast Nat.pos_iff_ne_zero.mp hlpos
        have hq1 : (((l.length : ℤ) + 1 : ℤ) : ℚ) ≠ 0 := by
          push_cast
          positivity
        field_simp

/-- C3: after recording any nonempty sequence of games starting from a fresh
user, the stored `avg_response_time` equals the exact arithmetic mean of the
recorded response times — for the user aggregate and for each per-category
aggregate (over that category's games). -/
theorem avg_response_time_exact_mean (gs : List GameSession) (uid : ℤ) (hne : gs ≠ []) :
    ((gs.foldl update_user_stats_sync (fresh_user uid)).avg_response_time =
      (gs.map GameSession.response_time).sum / (gs.length : ℚ)) ∧
    (∀ c : String, c ≠ "" → gs.filter (fun g => g.category = c) ≠ [] →
      ((gs.foldl update_category_stats_sync (fun _ => fresh_stats)) c).avg_response_time =
        ((gs.filter (fun g => g.category = c)).map GameSession.response_time).sum /
          ((gs.filter (fun g => g.category = c)).length : ℚ)) := by
  refine ⟨foldl_user_avg gs uid hne, fun c hc hf => ?_⟩
  rw [foldl_category_pointwise c hc gs]
  exact foldl_row_avg _ hf

/-- Concrete instance of `avg_response_time_exact_mean`: two games in category
`science` with response times 2 and 4. -/
theorem avg_exact_mean_witness :
    (([gameW1, gameW2].foldl update_user_stats_sync (fresh_user 1)).avg_response_time =
      ([gameW1, gameW2].map GameSession.response_time).sum / (([gameW1, gameW2] : List GameSession).length : ℚ)) ∧
    (([gameW1, gameW2].foldl update_category_stats_sync (fun _ => fresh_stats)) "science").avg_response_time =
      (([gameW1, gameW2].filter (fun g => g.category = "science")).map GameSession.response_time).sum /
        ((([gameW1, gameW2] : List GameSession).filter (fun g => g.category = "science")).length : ℚ) :=
  ⟨(avg_response_time_exact_mean [gameW1, gameW2] 1 (by simp)).1,
   (avg_response_time_exact_mean [gameW1, gameW2] 1 (by simp)).2 "science" (by decide)
     (by simp [gameW1, gameW2])⟩

/-! ## Claim C4: atomicity of recording a completed game. -/

/-- C4: `_save_game_session_sync` is atomic — if a raise is injected at any of
its three steps (flush of the game-row insert, user-aggregate update,
category-aggregate update) the call reports the error and the persisted state
keeps its pre-call values; with no raise, all three effects commit. -/
theorem save_game_session_atomic (db : TriviaDb) (g : GameSession) (f0 f1 f2 : Bool) :
    ((f0 = true ∨ f1 = true ∨ f2 = true) →
      (∃ e, save_game_session_sync db g f0 f1 f2 = Except.error e) ∧
        persisted_after db g f0 f1 f2 = db) ∧
    (f0 = false → f1 = false → f2 = false →
      persisted_after db g f0 f1 f2 =
        { game_sessions := db.game_sessions ++ [g],
          user := update_user_stats_sync db.user g,
          category_stats := update_category_stats_sync db.category_stats g }) := by
  cases f0 <;> cases f1 <;> cases f2 <;>
    simp [save_game_session_sync, persisted_after]

/-- Concrete instance of `save_game_session_atomic`: a raise in the user-stats
step rolls an empty database back to its pre-call state. -/
theorem save_game_session_atomic_witness :
    (∃ e, save_game_session_sync ⟨[], fresh_user 1, fun _ => fresh_stats⟩ gameW1
        false true false = Except.error e) ∧
      persisted_after ⟨[], fresh_user 1, fun _ => fresh_stats⟩ gameW1 false true false =
        ⟨[], fresh_user 1, fun _ => fresh_stats⟩ :=
  (save_game_session_atomic ⟨[], fresh_user 1, fun _ => fresh_stats⟩ gameW1
    false true false).1 (Or.inr (Or.inl rfl))

/-! ## Claim C8: the leaderboard ordering. -/

/-- Concrete sort used by the counterexample: `lbUserA` (raw score 100) comes
before `lbUserB` (raw score 99) under `ORDER BY total_score DESC`. -/
theorem lb_sort_pair :
    List.insertionSort byTotalScoreDesc [lbUserA, lbUserB] = [lbUserA, lbUserB] := by
  simp [List.insertionSort, List.orderedInsert, byTotalScoreDesc, lbUserA, lbUserB]
  norm_num

/-- C8 counterexample: the displayed leaderboard is NOT ordered by the
normalized score.  With `lbUserA` (total score 100 over 2 games, 0% wins) and
`lbUserB` (total score 99 over 2 games, 100% wins), the query returns `lbUserA`
first (raw-score order), but its normalized score is strictly below
`lbUserB`'s, so the claimed descending-normalized-score ordering fails. -/
theorem leaderboard_order_counterexample :
    ¬ List.Chain' (fun p q : ℤ × ℝ => q.2 ≤ p.2) (leaderboard_view 10 [lbUserA, lbUserB]) := by
  have hsort : get_leaderboard 10 [lbUserA, lbUserB] = [lbUserA, lbUserB] := by
    unfold get_leaderboard
    rw [lb_sort_pair]
    rfl
  unfold leaderboard_view
  rw [hsort]
  simp only [List.map_cons, List.map_nil, List.chain'_cons, List.chain'_singleton, and_true]
  intro hle
  have hL0 : (0 : ℝ) < Real.log 3 := Real.log_pos (by norm_num)
  have hL2 : Real.log 3 ≤ 2 := by
    have := Real.log_le_sub_one_of_pos (show (0 : ℝ) < 3 by norm_num)
    linarith
  have hA : normalize_score_for_leaderboard ((lbUserA.total_score : ℝ)) lbUserA.total_games
      ((lbUserA.win_rate : ℝ)) =
      round2 (50 * (1 + Real.log 3 / 20)) := by
    simp only [normalize_score_for_leaderboard, lbUserA, User.win_rate]
    norm_num
  have hB : normalize_score_for_leaderboard ((lbUserB.total_score : ℝ)) lbUserB.total_games
      ((lbUserB.win_rate : ℝ)) =
      round2 ((99 / 2) * (3 / 2) * (1 + Real.log 3 / 20)) := by
    simp only [normalize_score_for_leaderboard, lbUserB, User.win_rate]
    norm_num
  rw [hA, hB] at hle
  have h1 := round2_le (50 * (1 + Real.log 3 / 20))
  have h2 := le_round2 ((99 / 2) * (3 / 2) * (1 + Real.log 3 / 20))
  nlinarith

/-- C8 amended: `GetLeaderboard(limit)` returns at most `limit` entries ordered
by raw `total_score` descending (not by normalized score); each displayed entry
carries the normalized score computed by `normalize_score_for_leaderboard` from
that row's totals. -/
theorem leaderboard_spec_amended (limit : ℕ) (db : List User) :
    (leaderboard_view limit db).length ≤ limit ∧
    List.Sorted byTotalScoreDesc (get_leaderboard limit db) ∧
    leaderboard_view limit db = (get_leaderboard limit db).map
      (fun u => (u.id, normalize_score_for_leaderboard (u.total_score : ℝ) u.total_games
        (u.win_rate : ℝ))) := by
  refine ⟨?_, ?_, rfl⟩
  · unfold leaderboard_view get_leaderboard
    rw [List.length_map]
    exact List.length_take_le _ _
  · unfold get_leaderboard
    exact List.Pairwise.sublist (List.take_sublist _ _)
      (List.sorted_insertionSort byTotalScoreDesc db)

/-! ## Claims C1, C2, C10: the answer/timeout race. -/

/-- Timeout segments preserve the race invariant: they never write a game row,
never call a stats update, and never touch the aggregates. -/
theorem race_invariant_timeout_step (u : User) (m : String → UserStats)
    (s : CogState) (h : race_invariant u m s) :
    race_invariant u m (timeout_step s) := by
  obtain ⟨h1, h2, h3, h4⟩ := h
  rcases s with ⟨game, apc, tpc, rec, st, us, cats⟩
  cases tpc <;> cases game <;> exact ⟨h1, h2, h3, h4⟩

/-- Eliminate the impossible case that the terminal segment `a3` is one of the
pre-save segments. -/
theorem apc_a3_elim {C : Prop}
    (h : APc.a3 = APc.a0 ∨ APc.a3 = APc.a1 ∨ APc.a3 = APc.a2) : C :=
  h.elim (fun h0 => APc.noConfusion h0)
    (fun h2 => h2.elim (fun h0 => APc.noConfusion h0) (fun h0 => APc.noConfusion h0))

/-- Eliminate the impossible case that the finished coroutine is at one of the
pre-save segments. -/
theorem apc_adone_elim {C : Prop}
    (h : APc.adone = APc.a0 ∨ APc.adone = APc.a1 ∨ APc.adone = APc.a2) : C :=
  h.elim (fun h0 => APc.noConfusion h0)
    (fun h2 => h2.elim (fun h0 => APc.noConfusion h0) (fun h0 => APc.noConfusion h0))

/-- Answer segments preserve the race invariant: the single save segment `a2`
is reachable only with nothing saved yet, and saves exactly once. -/
theorem race_invariant_answer_step (valid : Bool) (g : GameSession) (u : User)
    (m : String → UserStats) (s : CogState) (h : race_invariant u m s) :
    race_invariant u m (answer_step valid g s) := by
  obtain ⟨h1, h2, h3, h4⟩ := h
  rcases s with ⟨game, apc, tpc, rec, st, us, cats⟩
  cases apc <;> cases game <;> cases valid <;>
    first
      | exact ⟨h1, h2, h3, h4⟩
      | exact ⟨h1, h2, fun _ => h3 (Or.inl rfl), h4⟩
      | exact ⟨h1, h2, fun _ => h3 (Or.inr (Or.inl rfl)), h4⟩
      | exact ⟨h1, h2, fun hx => apc_adone_elim hx, h4⟩
      | exact ⟨h1, h2, fun hx => apc_a3_elim hx, h4⟩
      | exact ⟨congrArg (· + 1) h1,
          Nat.succ_le_succ (Nat.le_of_eq (h3 (Or.inr (Or.inr rfl)))),
          fun hx => apc_a3_elim hx,
          fun hx => absurd hx (Nat.succ_ne_zero rec)⟩

/-- Each scheduler step preserves the race invariant. -/
theorem race_invariant_step (valid : Bool) (g : GameSession) (u : User)
    (m : String → UserStats) (c : Bool) (s : CogState) (h : race_invariant u m s) :
    race_invariant u m (race_step valid g c s) := by
  cases c
  · exact race_invariant_timeout_step u m s h
  · exact race_invariant_answer_step valid g u m s h

/-- The race invariant holds after any schedule from any state satisfying it. -/
theorem race_invariant_run (valid : Bool) (g : GameSession) (u : User)
    (m : String → UserStats) : ∀ (sched : List Bool) (s : CogState),
    race_invariant u m s → race_invariant u m (race_run valid g sched s) := by
  intro sched
  induction sched with
  | nil => exact fun s h => h
  | cons c cs ih =>
      intro s h
      exact ih (race_step valid g c s) (race_invariant_step valid g u m c s h)

/-- The race invariant holds in the initial state. -/
theorem race_invariant_init (u : User) (m : String → UserStats) :
    race_invariant u m (race_init u m) :=
  ⟨rfl, Nat.zero_le 1, fun _ => rfl, fun _ => ⟨rfl, rfl⟩⟩

/-- C1 amended: under every interleaving of the answer handler and the fired
timeout callback, at most one game row and stats update are produced (the
timeout path never produces any), the number of stats updates equals the number
of saved game rows, and when no row was saved the user aggregate is untouched.
The original claim's "exactly one" fails: `finalize_race_counterexample`
exhibits a schedule where both handlers run and neither finalizes. -/
theorem finalize_race_at_most_one (valid : Bool) (g : GameSession) (u : User)
    (m : String → UserStats) (sched : List Bool) :
    (race_run valid g sched (race_init u m)).saved_records ≤ 1 ∧
    (race_run valid g sched (race_init u m)).stats_calls =
      (race_run valid g sched (race_init u m)).saved_records ∧
    ((race_run valid g sched (race_init u m)).saved_records = 0 →
      (race_run valid g sched (race_init u m)).user = u ∧
      (race_run valid g sched (race_init u m)).category_stats = m) := by
  have h := race_invariant_run valid g u m sched (race_init u m)
    (race_invariant_init u m)
  exact ⟨h.2.1, h.1, h.2.2.2⟩

/-- Concrete instance of `finalize_race_at_most_one` at the schedule of
`finalize_race_counterexample`: nothing was saved there, so the aggregates are
untouched. -/
theorem finalize_race_at_most_one_witness :
    (race_run true gameW1 [true, false, false, true]
        (race_init (fresh_user 1) (fun _ => fresh_stats))).user = fresh_user 1 ∧
    (race_run true gameW1 [true, false, false, true]
        (race_init (fresh_user 1) (fun _ => fresh_stats))).category_stats =
      (fun _ => fresh_stats) :=
  (finalize_race_at_most_one true gameW1 (fresh_user 1) (fun _ => fresh_stats)
    [true, false, false, true]).2.2 rfl

/-- C1 counterexample: the schedule where the answer handler passes its
active-game guard, then the timeout fires and finalizes during the answer
handler's `defer()` suspension, then the answer handler resumes into a
`KeyError`.  Both handlers ran against the same active session, yet ZERO game
rows and ZERO stats updates are produced — not "exactly one". -/
theorem finalize_race_counterexample :
    (race_run true gameW1 [true, false, false, true]
        (race_init (fresh_user 1) (fun _ => fresh_stats))).saved_records = 0 ∧
    (race_run true gameW1 [true, false, false, true]
        (race_init (fresh_user 1) (fun _ => fresh_stats))).stats_calls = 0 ∧
    (race_run true gameW1 [true, false, false, true]
        (race_init (fresh_user 1) (fun _ => fresh_stats))).apc = APc.adone ∧
    (race_run true gameW1 [true, false, false, true]
        (race_init (fresh_user 1) (fun _ => fresh_stats))).tpc = TPc.tdone ∧
    (race_run true gameW1 [true, false, false, true]
        (race_init (fresh_user 1) (fun _ => fresh_stats))).game = false :=
  ⟨rfl, rfl, rfl, rfl, rfl⟩

/-- C2 amended: when the timeout fires with no answer, the handler removes the
session from the registry, but writes NO game row, performs NO stats update,
and leaves the whole user aggregate — in particular `current_streak` and
`best_streak` — unchanged. -/
theorem timeout_without_answer_spec (valid : Bool) (g : GameSession) (u : User)
    (m : String → UserStats) :
    (race_run valid g [false, false] (race_init u m)).game = false ∧
    (race_run valid g [false, false] (race_init u m)).saved_records = 0 ∧
    (race_run valid g [false, false] (race_init u m)).stats_calls = 0 ∧
    (race_run valid g [false, false] (race_init u m)).user = u ∧
    (race_run valid g [false, false] (race_init u m)).category_stats = m :=
  ⟨rfl, rfl, rfl, rfl, rfl⟩

/-- C2 counterexample: a user on a 3-streak whose session times out.  The
claimed behaviour (a game row is written, `recordGame` runs, `current_streak`
resets to 0) does not happen: no row, no stats call, and the streak stays 3. -/
theorem timeout_finalization_counterexample :
    (race_run true gameW1 [false, false]
        (race_init streak_user (fun _ => fresh_stats))).game = false ∧
    (race_run true gameW1 [false, false]
        (race_init streak_user (fun _ => fresh_stats))).saved_records = 0 ∧
    (race_run true gameW1 [false, false]
        (race_init streak_user (fun _ => fresh_stats))).stats_calls = 0 ∧
    (race_run true gameW1 [false, false]
        (race_init streak_user (fun _ => fresh_stats))).user.current_streak = 3 ∧
    (race_run true gameW1 [false, false]
        (race_init streak_user (fun _ => fresh_stats))).user.best_streak = 5 :=
  ⟨rfl, rfl, rfl, rfl, rfl⟩

/-- C10: submitting a letter that is not `A`/`B`/`C`/`D` (after
`upper().strip()`) to an active session cancels the armed timeout task first
and only then rejects the input, leaving the session active in the registry
with no timer: every further schedule leaves the state unchanged, so the
session can neither time out nor produce a game row or stats update. -/
theorem invalid_letter_leaves_session_stuck (letter : String)
    (hv : answer_letter_valid letter = false) (g : GameSession) (u : User)
    (m : String → UserStats) :
    (race_run (answer_letter_valid letter) g [true, true] (race_init u m)).game = true ∧
    (race_run (answer_letter_valid letter) g [true, true] (race_init u m)).tpc = TPc.tdone ∧
    (race_run (answer_letter_valid letter) g [true, true] (race_init u m)).saved_records = 0 ∧
    (race_run (answer_letter_valid letter) g [true, true] (race_init u m)).stats_calls = 0 ∧
    (race_run (answer_letter_valid letter) g [true, true] (race_init u m)).user = u ∧
    (∀ sched : List Bool,
      race_run (answer_letter_valid letter) g sched
        (race_run (answer_letter_valid letter) g [true, true] (race_init u m)) =
      race_run (answer_letter_valid letter) g [true, true] (race_init u m)) := by
  rw [hv]
  have hs : race_run false g [true, true] (race_init u m) =
      { game := true, apc := APc.adone, tpc := TPc.tdone, saved_records := 0,
        stats_calls := 0, user := u, category_stats := m } := rfl
  rw [hs]
  refine ⟨rfl, rfl, rfl, rfl, rfl, ?_⟩
  intro sched
  induction sched with
  | nil => rfl
  | cons c cs ih =>
      have hstep : ∀ cb : Bool, race_step false g cb
          { game := true, apc := APc.adone, tpc := TPc.tdone, saved_records := 0,
            stats_calls := 0, user := u, category_stats := m } =
          { game := true, apc := APc.adone, tpc := TPc.tdone, saved_records := 0,
            stats_calls := 0, user := u, category_stats := m } := by
        intro cb
        cases cb <;> rfl
      show race_run false g cs (race_step false g c
        { game := true, apc := APc.adone, tpc := TPc.tdone, saved_records := 0,
          stats_calls := 0, user := u, category_stats := m }) = _
      rw [hstep c]
      exact ih

/-- Concrete instance of `invalid_letter_leaves_session_stuck` for the letter
`"e"`. -/
theorem invalid_letter_witness :
    answer_letter_valid "e" = false ∧
    (race_run (answer_letter_valid "e") gameW1 [true, true]
        (race_init (fresh_user 1) (fun _ => fresh_stats))).game = true ∧
    (race_run (answer_letter_valid "e") gameW1 [true, true]
        (race_init (fresh_user 1) (fun _ => fresh_stats))).tpc = TPc.tdone :=
  ⟨by decide,
   (invalid_letter_leaves_session_stuck "e" (by decide) gameW1 (fresh_user 1)
     (fun _ => fresh_stats)).1,
   (invalid_letter_leaves_session_stuck "e" (by decide) gameW1 (fresh_user 1)
     (fun _ => fresh_stats)).2.1⟩
